import Mathlib

/-!
Shallow embedding of the EcoQuest backend (Backend-EcoQuest/main.py): the
SQLite-backed daily rate-limiting gate, the points ledger, and the gated
HTTP endpoints.  SQL tables are modelled as association lists, each SQL
statement as a pure function on the database state, and a request handler
as a function from the pre-state to (result, post-state).  External HTTP
providers (geocoding, IQAir, Climatiq) are abstracted as an explicit
outcome parameter: the handlers only inspect whether the provider payload
carries an "error" key.
-/

/-- A FastAPI `HTTPException(status_code, detail)`. -/
structure HTTPError where
  status_code : Nat
  detail : String
deriving Repr, DecidableEq

/-- One row of the `daily_actions` table: the three per-day counters
(the `username`, `date` key is kept outside, in the association list). -/
structure DailyRecord where
  aqi_checks : Nat
  forecast_checks : Nat
  carbon_calculations : Nat
deriving Repr, DecidableEq

/-- The zero-initialised counters inserted on first access. -/
def DailyRecord.zero : DailyRecord := ⟨0, 0, 0⟩

/-- Read the counter column named `k` (models `daily_actions[action_type]`). -/
def DailyRecord.col (r : DailyRecord) (k : String) : Nat :=
  if k = "aqi_checks" then r.aqi_checks
  else if k = "forecast_checks" then r.forecast_checks
  else if k = "carbon_calculations" then r.carbon_calculations
  else 0

/-- Models `UPDATE daily_actions SET {k} = {k} + 1` on one row, for the three
counter columns (the SQL is built by string interpolation from `k`;
the gate only reaches it for the three known kinds). -/
def DailyRecord.bump (r : DailyRecord) (k : String) : DailyRecord :=
  if k = "aqi_checks" then { r with aqi_checks := r.aqi_checks + 1 }
  else if k = "forecast_checks" then { r with forecast_checks := r.forecast_checks + 1 }
  else if k = "carbon_calculations" then { r with carbon_calculations := r.carbon_calculations + 1 }
  else r

/-- Look up the points row of a user (`SELECT points FROM users WHERE username=?`). -/
def lookupUser : List (String × Int) → String → Option Int
  | [], _ => none
  | (n, p) :: rest, u => if n = u then some p else lookupUser rest u

/-- Models `UPDATE users SET points=? WHERE username=?`. -/
def setUser : List (String × Int) → String → Int → List (String × Int)
  | [], _, _ => []
  | (n, p) :: rest, u, pts =>
    if n = u then (n, pts) :: setUser rest u pts else (n, p) :: setUser rest u pts

/-- Models `SELECT ... FROM daily_actions WHERE username=? AND date=?`. -/
def lookupDaily : List ((String × String) × DailyRecord) → String × String → Option DailyRecord
  | [], _ => none
  | (key, r) :: rest, k => if key = k then some r else lookupDaily rest k

/-- Models `UPDATE daily_actions SET {c} = {c} + 1 WHERE username=? AND date=?`. -/
def incDaily : List ((String × String) × DailyRecord) → String × String → String →
    List ((String × String) × DailyRecord)
  | [], _, _ => []
  | (key, r) :: rest, k, c =>
    if key = k then (key, r.bump c) :: incDaily rest k c else (key, r) :: incDaily rest k c

/-- The whole persistent state: the `users` and `daily_actions` tables. -/
structure DBState where
  users : List (String × Int)
  daily : List ((String × String) × DailyRecord)
deriving Repr, DecidableEq

/-- A freshly created database (both tables empty). -/
def emptyDB : DBState := ⟨[], []⟩

/-- The `DAILY_LIMITS` dict: per-day cap for each action kind; `none` for
an unknown kind (models `action_type not in DAILY_LIMITS`). -/
def dailyLimit (k : String) : Option Nat :=
  if k = "aqi_checks" then some 5
  else if k = "forecast_checks" then some 3
  else if k = "carbon_calculations" then some 10
  else none

/-- The 429 error raised when a daily cap is hit. -/
def quotaError (k : String) (limit : Nat) : HTTPError :=
  ⟨429, "Daily limit exceeded. You can only perform " ++ k ++ " " ++
    toString limit ++ " times per day."⟩

/-- The 400 error raised for an unknown action kind. -/
def invalidActionError : HTTPError := ⟨400, "Invalid action type"⟩

/-- Models `INSERT OR IGNORE INTO daily_actions ... VALUES (?, ?, 0, 0, 0)` followed
by `commit`: one atomic SQL statement of `get_daily_actions`. -/
def gateEnsure (u d : String) (st : DBState) : DBState :=
  if (lookupDaily st.daily (u, d)).isSome then st
  else { st with daily := st.daily ++ [((u, d), DailyRecord.zero)] }

/-- The `SELECT` of `get_daily_actions`: read the three counters for
(user, today).  After `gateEnsure` the row always exists; `getD` covers the
vacuous missing case. -/
def gateSelect (u d : String) (st : DBState) : DailyRecord :=
  (lookupDaily st.daily (u, d)).getD DailyRecord.zero

/-- Models `get_daily_actions(username)`: insert-or-ignore a zero row for
(user, today), then fetch it. -/
def get_daily_actions (u d : String) (st : DBState) : DailyRecord × DBState :=
  let st1 := gateEnsure u d st
  (gateSelect u d st1, st1)

/-- The increment statement of `check_and_increment_action`: the `UPDATE`
adding 1 to the `k` counter; when `cursor.rowcount == 0` (row vanished) the
recovery `INSERT OR REPLACE` writes a row with 1 in column `k`. -/
def gateUpdate (u d k : String) (st : DBState) : DBState :=
  if (lookupDaily st.daily (u, d)).isSome then
    { st with daily := incDaily st.daily (u, d) k }
  else
    { st with daily := st.daily ++ [((u, d), DailyRecord.zero.bump k)] }

/-- Models `check_and_increment_action(username, action_type)`: reject unknown kinds
with 400 before touching storage; ensure the daily row exists; reject with
429 when the snapshot counter has reached the cap; otherwise increment the
counter and return `snapshot + 1`.  The `HTTPException` aborts the request
but the committed database state persists, so the post-state is returned in
every case. -/
def check_and_increment_action (u k d : String) (st : DBState) :
    Except HTTPError Nat × DBState :=
  match dailyLimit k with
  | none => (.error invalidActionError, st)
  | some limit =>
    let res := get_daily_actions u d st
    let da := res.1
    let st1 := res.2
    if limit ≤ da.col k then
      (.error (quotaError k limit), st1)
    else
      (.ok (da.col k + 1), gateUpdate u d k st1)

/-- Current value of one daily counter, reading 0 when the row is absent. -/
def countOf (st : DBState) (u d k : String) : Nat :=
  ((lookupDaily st.daily (u, d)).getD DailyRecord.zero).col k

/-- The point balance of a user, reading 0 when the row is absent. -/
def bal (st : DBState) (u : String) : Int :=
  (lookupUser st.users u).getD 0

/-- Whether a gate call was admitted. -/
def exceptOk : Except HTTPError Nat → Bool
  | .ok _ => true
  | .error _ => false

/-- Outcome of an abstract external fetch (`get_air_quality`,
`get_aqi_forecast`): the handlers only test `"error" not in data`, so the
payload is a success body or an error message. -/
inductive FetchData where
  | payload (body : String)
  | failure (msg : String)
deriving Repr, DecidableEq

/-- Outcome of the Climatiq POST inside `get_carbon_estimate`: a `co2e`
figure, or an exception caught by the surrounding `try`. -/
inductive ProviderResult where
  | success (co2e : Int)
  | exn (msg : String)
deriving Repr, DecidableEq

/-- Return value of `get_carbon_estimate`: the
`{activity, value, unit, kgCO2}` dict or an `error` dict. -/
inductive CarbonData where
  | estimate (activity : String) (value : Int) ( unit : String) (kgCO2 : Int)
  | failure (msg : String)
deriving Repr, DecidableEq

/-- Membership test `activity in ACTIVITY_MAP` (the map values are Climatiq activity ids,
consumed only by the abstracted external call). -/
def activitySupported (activity : String) : Bool :=
  activity == "car" || activity == "bus" || activity == "train" ||
    activity == "flight" || activity == "electricity"

/-- The error dict for an activity outside `ACTIVITY_MAP` (the Python
f-string renders the key list; the exact wording is immaterial). -/
def unsupportedActivityMsg : String :=
  "Unsupported activity. Choose from car, bus, train, flight, electricity"

/-- Models `get_carbon_estimate(activity, value, unit)`: reject activities outside
`ACTIVITY_MAP`; build distance parameters for the four vehicle kinds and
energy parameters for electricity (the parameters only feed the external
POST, abstracted by `provider`); on provider success return the result dict
whose `unit` is computed from the activity alone, ignoring the `unit`
argument; on provider exception return an error dict. -/
def get_carbon_estimate (activity : String) (value : Int) ( unit : String)
    (provider : ProviderResult) : CarbonData :=
  if ¬ activitySupported activity then
    .failure unsupportedActivityMsg
  else if activity == "car" || activity == "bus" || activity == "train" ||
      activity == "flight" then
    match provider with
    | .success co2e =>
      .estimate activity value (if activity ≠ "electricity" then "km" else "kWh") co2e
    | .exn m => .failure ("Failed to fetch carbon data: " ++ m)
  else if activity == "electricity" then
    match provider with
    | .success co2e =>
      .estimate activity value (if activity ≠ "electricity" then "km" else "kWh") co2e
    | .exn m => .failure ("Failed to fetch carbon data: " ++ m)
  else
    .failure "Unsupported activity type"

/-- Response body of a gated endpoint: the fetch result dict, possibly
augmented in place with the three gamification keys
(`data["points_earned"] = ...` etc.). -/
structure GatedBody (α : Type) where
  data : α
  points_earned : Option Int := none
  total_points : Option Int := none
  remaining_checks : Option Int := none
deriving Repr, DecidableEq

/-- The inline points-award block shared by the three gated endpoints:
`SELECT points`, then `UPDATE`-or-`INSERT` with the prior balance plus
`amount` (or `amount` for a new user); returns the new balance. -/
def awardUserPoints (u : String) (amount : Int) (st : DBState) : Int × DBState :=
  match lookupUser st.users u with
  | some p => (p + amount, { st with users := setUser st.users u (p + amount) })
  | none => (amount, { st with users := st.users ++ [(u, amount)] })

/-- Endpoint `GET /air_quality`: gate on `aqi_checks`, fetch (abstracted), and on a
payload without `error` award 10 points and attach the gamification keys. -/
def air_quality (username today : String) (fetch : FetchData) (st : DBState) :
    Except HTTPError (GatedBody FetchData) × DBState :=
  match check_and_increment_action username "aqi_checks" today st with
  | (.error e, st1) => (.error e, st1)
  | (.ok new_count, st1) =>
    match fetch with
    | .failure m => (.ok { data := .failure m }, st1)
    | .payload b =>
      let award := awardUserPoints username 10 st1
      (.ok { data := .payload b, points_earned := some 10,
             total_points := some award.1,
             remaining_checks := some (((dailyLimit "aqi_checks").getD 0 : Int) - new_count) },
       award.2)

/-- Endpoint `GET /forecast`: clamp `days` to 1..7, gate on `forecast_checks`, fetch
the forecast for the clamped horizon (abstracted), and on success award 5
points and attach the gamification keys. -/
def forecast (days : Int) (username today : String) (fetch : Int → FetchData)
    (st : DBState) : Except HTTPError (GatedBody FetchData) × DBState :=
  let days := max 1 (min 7 days)
  match check_and_increment_action username "forecast_checks" today st with
  | (.error e, st1) => (.error e, st1)
  | (.ok new_count, st1) =>
    match fetch days with
    | .failure m => (.ok { data := .failure m }, st1)
    | .payload b =>
      let award := awardUserPoints username 5 st1
      (.ok { data := .payload b, points_earned := some 5,
             total_points := some award.1,
             remaining_checks := some (((dailyLimit "forecast_checks").getD 0 : Int) - new_count) },
       award.2)

/-- Endpoint `GET /carbon`: gate on `carbon_calculations`, call
`get_carbon_estimate(activity, value)` (the `unit` argument keeps its `"km"`
default), and on a dict without `error` award 15 points and attach the
gamification keys. -/
def carbon (activity : String) (value : Int) (username today : String)
    (provider : ProviderResult) (st : DBState) :
    Except HTTPError (GatedBody CarbonData) × DBState :=
  match check_and_increment_action username "carbon_calculations" today st with
  | (.error e, st1) => (.error e, st1)
  | (.ok new_count, st1) =>
    match get_carbon_estimate activity value "km" provider with
    | .failure m => (.ok { data := .failure m }, st1)
    | .estimate a v un kg =>
      let award := awardUserPoints username 15 st1
      (.ok { data := .estimate a v un kg, points_earned := some 15,
             total_points := some award.1,
             remaining_checks := some (((dailyLimit "carbon_calculations").getD 0 : Int) - new_count) },
       award.2)

/-- Endpoint `GET /user/{username}`: read the points row, creating it with 0 points
when absent, and fetch (creating if needed) the daily-actions row for today. -/
def get_user (username today : String) (st : DBState) :
    (Int × DailyRecord) × DBState :=
  match lookupUser st.users username with
  | some p =>
    let res := get_daily_actions username today st
    ((p, res.1), res.2)
  | none =>
    let st1 : DBState := { st with users := st.users ++ [(username, 0)] }
    let res := get_daily_actions username today st1
    ((0, res.1), res.2)

/-- Endpoint `POST /update_points`: unconditional, ungated balance adjustment by
`delta` (creating the row with `delta` when absent). -/
def update_points (username : String) (delta : Int) (st : DBState) :
    Int × DBState :=
  match lookupUser st.users username with
  | some p => (p + delta, { st with users := setUser st.users username (p + delta) })
  | none => (delta, { st with users := st.users ++ [(username, delta)] })

/-- Endpoint `GET /leaderboard`:
`SELECT username, points FROM users ORDER BY points DESC LIMIT 10`. -/
def leaderboard (st : DBState) : List (String × Int) :=
  (List.insertionSort (fun a b : String × Int => b.2 ≤ a.2) st.users).take 10

/-- One call of the public HTTP interface (external-fetch outcomes carried
as data, as in the endpoint models above). -/
inductive ApiOp where
  | airQualityOp (username : String) (fetch : FetchData)
  | forecastOp (days : Int) (username : String) (fetch : Int → FetchData)
  | carbonOp (activity : String) (value : Int) (username : String) (provider : ProviderResult)
  | getUserOp (username : String)
  | updatePointsOp (username : String) (delta : Int)
  | leaderboardOp
  | rootOp

/-- The state transition performed by one call of the public interface
(`/leaderboard` and `/` are read-only). -/
def runOp (today : String) (op : ApiOp) (st : DBState) : DBState :=
  match op with
  | .airQualityOp username fetch => (air_quality username today fetch st).2
  | .forecastOp days username fetch => (forecast days username today fetch st).2
  | .carbonOp activity value username provider => (carbon activity value username today provider st).2
  | .getUserOp username => (get_user username today st).2
  | .updatePointsOp username delta => (update_points username delta st).2
  | .leaderboardOp => st
  | .rootOp => st

/-- The op is the administrative `/update_points` adjustment. -/
def isAdjust : ApiOp → Prop
  | .updatePointsOp _ _ => True
  | _ => False

/-- The op is `/update_points` with a negative delta. -/
def isNegativeAdjust : ApiOp → Prop
  | .updatePointsOp _ d => d < 0
  | _ => False

/-- The op is a gate-approved, provider-successful gated action of user `u`
on state `st`: the quota gate admits it and the external fetch result
carries no `error` key. -/
def awardingOp (today : String) (op : ApiOp) (st : DBState) (u : String) : Prop :=
  match op with
  | .airQualityOp username fetch =>
    username = u ∧
      exceptOk (check_and_increment_action username "aqi_checks" today st).1 = true ∧
      ∃ b, fetch = .payload b
  | .forecastOp days username fetch =>
    username = u ∧
      exceptOk (check_and_increment_action username "forecast_checks" today st).1 = true ∧
      ∃ b, fetch (max 1 (min 7 days)) = .payload b
  | .carbonOp activity value username provider =>
    username = u ∧
      exceptOk (check_and_increment_action username "carbon_calculations" today st).1 = true ∧
      ∃ a v un kg, get_carbon_estimate activity value "km" provider = .estimate a v un kg
  | _ => False

/-! ### Association-list lemmas -/

theorem lookupUser_setUser (l : List (String × Int)) (u v : String) (pts : Int) :
    lookupUser (setUser l u pts) v =
      if v = u then (lookupUser l u).map (fun _ => pts) else lookupUser l v := by
  induction l with
  | nil => simp [lookupUser, setUser]
  | cons hd tl ih =>
    obtain ⟨n, p⟩ := hd
    by_cases hnu : n = u <;> by_cases hvu : v = u <;> by_cases hnv : n = v <;>
      simp_all [lookupUser, setUser]

theorem lookupUser_append (l : List (String × Int)) (u v : String) (p : Int) :
    lookupUser (l ++ [(u, p)]) v =
      if (lookupUser l v).isSome then lookupUser l v
      else if v = u then some p else none := by
  induction l with
  | nil => by_cases h : u = v <;> simp [lookupUser, h] <;> simp [Ne.symm h]
  | cons hd tl ih =>
    obtain ⟨n, q⟩ := hd
    by_cases hnv : n = v <;> simp [lookupUser, hnv, ih]

theorem lookupDaily_incDaily (l : List ((String × String) × DailyRecord))
    (key k2 : String × String) (c : String) :
    lookupDaily (incDaily l key c) k2 =
      if k2 = key then (lookupDaily l key).map (·.bump c) else lookupDaily l k2 := by
  induction l with
  | nil => simp [lookupDaily, incDaily]
  | cons hd tl ih =>
    obtain ⟨hk, r⟩ := hd
    by_cases h1 : hk = key <;> by_cases h2 : k2 = key <;> by_cases h3 : hk = k2 <;>
      simp_all [lookupDaily, incDaily]

theorem lookupDaily_append (l : List ((String × String) × DailyRecord))
    (key k2 : String × String) (r : DailyRecord) :
    lookupDaily (l ++ [(key, r)]) k2 =
      if (lookupDaily l k2).isSome then lookupDaily l k2
      else if k2 = key then some r else none := by
  induction l with
  | nil => by_cases h : key = k2 <;> simp [lookupDaily, h] <;> simp [Ne.symm h]
  | cons hd tl ih =>
    obtain ⟨hk, q⟩ := hd
    by_cases hk2 : hk = k2 <;> simp [lookupDaily, hk2, ih]

/-! ### Lemmas about the atomic steps of the gate -/

theorem users_gateEnsure (u d : String) (st : DBState) :
    (gateEnsure u d st).users = st.users := by
  unfold gateEnsure; split <;> rfl

theorem users_gateUpdate (u d k : String) (st : DBState) :
    (gateUpdate u d k st).users = st.users := by
  unfold gateUpdate; split <;> rfl

theorem users_gate (u k d : String) (st : DBState) :
    (check_and_increment_action u k d st).2.users = st.users := by
  unfold check_and_increment_action get_daily_actions
  split
  · rfl
  · dsimp only
    split
    · exact users_gateEnsure u d st
    · rw [users_gateUpdate, users_gateEnsure]

theorem lookupDaily_gateEnsure_self (u d : String) (st : DBState) :
    lookupDaily (gateEnsure u d st).daily (u, d) =
      some ((lookupDaily st.daily (u, d)).getD DailyRecord.zero) := by
  unfold gateEnsure
  cases h : lookupDaily st.daily (u, d) <;> simp [h, lookupDaily_append]

theorem lookupDaily_gateEnsure_other (u d : String) (k2 : String × String)
    (st : DBState) (h : k2 ≠ (u, d)) :
    lookupDaily (gateEnsure u d st).daily k2 = lookupDaily st.daily k2 := by
  unfold gateEnsure
  split
  · rfl
  · rw [lookupDaily_append]
    simp only [h, if_false]
    cases hl : lookupDaily st.daily k2 <;> simp [hl]

theorem countOf_gateEnsure (u d u' d' c : String) (st : DBState) :
    countOf (gateEnsure u d st) u' d' c = countOf st u' d' c := by
  by_cases h : (u', d') = (u, d)
  · obtain ⟨h1, h2⟩ := Prod.mk.injEq .. ▸ h
    subst h1; subst h2
    unfold countOf
    rw [lookupDaily_gateEnsure_self]
    cases hl : lookupDaily st.daily (u', d') <;> simp [hl]
  · unfold countOf
    rw [lookupDaily_gateEnsure_other u d (u', d') st h]

theorem gateSelect_gateEnsure (u d : String) (st : DBState) :
    gateSelect u d (gateEnsure u d st) =
      (lookupDaily st.daily (u, d)).getD DailyRecord.zero := by
  unfold gateSelect
  rw [lookupDaily_gateEnsure_self]
  rfl

theorem countOf_gateUpdate (u d k u' d' c : String) (st : DBState) :
    countOf (gateUpdate u d k st) u' d' c =
      if u' = u ∧ d' = d then
        (((lookupDaily st.daily (u, d)).getD DailyRecord.zero).bump k).col c
      else countOf st u' d' c := by
  unfold gateUpdate countOf
  cases hl : lookupDaily st.daily (u, d) with
  | none =>
    rw [if_neg (by simp [hl])]
    dsimp only
    rw [lookupDaily_append]
    by_cases h : u' = u ∧ d' = d
    · obtain ⟨h1, h2⟩ := h
      subst h1; subst h2
      simp [hl]
    · have hp : (u', d') ≠ (u, d) := by
        intro hc; rw [Prod.mk.injEq] at hc; exact h hc
      rw [if_neg h]
      cases hl2 : lookupDaily st.daily (u', d') <;> simp [hl2, hp, h]
  | some r =>
    rw [if_pos (by simp [hl])]
    dsimp only
    rw [lookupDaily_incDaily]
    by_cases h : u' = u ∧ d' = d
    · obtain ⟨h1, h2⟩ := h
      subst h1; subst h2
      simp [hl]
    · have hp : (u', d') ≠ (u, d) := by
        intro hc; rw [Prod.mk.injEq] at hc; exact h hc
      rw [if_neg hp, if_neg h]

/-! ### Lemmas about counter columns -/

theorem dailyLimit_elim (k : String) (L : Nat) (hk : dailyLimit k = some L) :
    (k = "aqi_checks" ∧ L = 5) ∨ (k = "forecast_checks" ∧ L = 3) ∨
      (k = "carbon_calculations" ∧ L = 10) := by
  unfold dailyLimit at hk
  split_ifs at hk with h1 h2 h3 <;> simp_all

theorem col_bump_self (r : DailyRecord) (k : String) (L : Nat)
    (hk : dailyLimit k = some L) : (r.bump k).col k = r.col k + 1 := by
  rcases dailyLimit_elim k L hk with ⟨h, _⟩ | ⟨h, _⟩ | ⟨h, _⟩ <;>
    subst h <;> simp [DailyRecord.bump, DailyRecord.col]

theorem col_bump_other (r : DailyRecord) (k c : String) (h : c ≠ k) :
    (r.bump k).col c = r.col c := by
  unfold DailyRecord.bump DailyRecord.col
  split_ifs <;> simp_all

/-! ### The gate as a whole -/

theorem gate_pass (u k d : String) (st : DBState) (L : Nat)
    (hk : dailyLimit k = some L) (h : countOf st u d k < L) :
    check_and_increment_action u k d st =
      (.ok (countOf st u d k + 1), gateUpdate u d k (gateEnsure u d st)) := by
  unfold check_and_increment_action get_daily_actions
  rw [hk]
  dsimp only
  rw [gateSelect_gateEnsure]
  have hc : ((lookupDaily st.daily (u, d)).getD DailyRecord.zero).col k =
      countOf st u d k := rfl
  rw [hc, if_neg (by omega)]

theorem gate_reject (u k d : String) (st : DBState) (L : Nat)
    (hk : dailyLimit k = some L) (h : L ≤ countOf st u d k) :
    check_and_increment_action u k d st =
      (.error (quotaError k L), gateEnsure u d st) := by
  unfold check_and_increment_action get_daily_actions
  rw [hk]
  dsimp only
  rw [gateSelect_gateEnsure]
  have hc : ((lookupDaily st.daily (u, d)).getD DailyRecord.zero).col k =
      countOf st u d k := rfl
  rw [hc, if_pos h]

theorem countOf_gate_passed (u k d u' d' c : String) (st : DBState) (L : Nat)
    (hk : dailyLimit k = some L) (h : countOf st u d k < L) :
    countOf (check_and_increment_action u k d st).2 u' d' c =
      if u' = u ∧ d' = d ∧ c = k then countOf st u d k + 1
      else countOf st u' d' c := by
  rw [gate_pass u k d st L hk h]
  dsimp only
  rw [countOf_gateUpdate, lookupDaily_gateEnsure_self]
  by_cases hud : u' = u ∧ d' = d
  · obtain ⟨h1, h2⟩ := hud
    subst h1; subst h2
    rw [if_pos ⟨rfl, rfl⟩]
    by_cases hck : c = k
    · subst hck
      rw [if_pos ⟨rfl, rfl, rfl⟩, Option.getD_some, col_bump_self _ c L hk]
      rfl
    · rw [if_neg (by simp [hck]), Option.getD_some, col_bump_other _ k c hck]
      rfl
  · rw [if_neg hud, if_neg (fun hc => hud ⟨hc.1, hc.2.1⟩)]
    exact countOf_gateEnsure u d u' d' c st

/-! ### Points award -/

theorem award_fst (u : String) (amt : Int) (st : DBState) :
    (awardUserPoints u amt st).1 = bal st u + amt := by
  unfold awardUserPoints bal
  cases h : lookupUser st.users u <;> simp [h]

theorem bal_award (u v : String) (amt : Int) (st : DBState) :
    bal (awardUserPoints u amt st).2 v =
      if v = u then bal st u + amt else bal st v := by
  unfold awardUserPoints bal
  cases h : lookupUser st.users u with
  | some p =>
    simp only
    rw [lookupUser_setUser]
    by_cases hv : v = u <;> simp [hv, h]
  | none =>
    simp only
    rw [lookupUser_append]
    by_cases hv : v = u
    · subst hv; simp [h]
    · simp [hv]
      cases hl : lookupUser st.users v <;> simp [hl]

theorem daily_award (u : String) (amt : Int) (st : DBState) :
    (awardUserPoints u amt st).2.daily = st.daily := by
  unfold awardUserPoints
  cases h : lookupUser st.users u <;> simp [h]

/-! ### Evaluation lemmas for the gated endpoints -/

theorem air_quality_pass (username today : String) (fetch : FetchData)
    (st st1 : DBState) (n : Nat)
    (hg : check_and_increment_action username "aqi_checks" today st = (.ok n, st1)) :
    air_quality username today fetch st =
      match fetch with
      | .failure m => (.ok { data := .failure m }, st1)
      | .payload b =>
        (.ok { data := .payload b, points_earned := some 10,
               total_points := some (awardUserPoints username 10 st1).1,
               remaining_checks := some (((dailyLimit "aqi_checks").getD 0 : Int) - n) },
         (awardUserPoints username 10 st1).2) := by
  unfold air_quality
  rw [hg]

theorem air_quality_reject (username today : String) (fetch : FetchData)
    (st st1 : DBState) (e : HTTPError)
    (hg : check_and_increment_action username "aqi_checks" today st = (.error e, st1)) :
    air_quality username today fetch st = (.error e, st1) := by
  unfold air_quality
  rw [hg]

theorem forecast_pass (days : Int) (username today : String) (fetch : Int → FetchData)
    (st st1 : DBState) (n : Nat)
    (hg : check_and_increment_action username "forecast_checks" today st = (.ok n, st1)) :
    forecast days username today fetch st =
      match fetch (max 1 (min 7 days)) with
      | .failure m => (.ok { data := .failure m }, st1)
      | .payload b =>
        (.ok { data := .payload b, points_earned := some 5,
               total_points := some (awardUserPoints username 5 st1).1,
               remaining_checks := some (((dailyLimit "forecast_checks").getD 0 : Int) - n) },
         (awardUserPoints username 5 st1).2) := by
  unfold forecast
  rw [hg]

theorem forecast_reject (days : Int) (username today : String) (fetch : Int → FetchData)
    (st st1 : DBState) (e : HTTPError)
    (hg : check_and_increment_action username "forecast_checks" today st = (.error e, st1)) :
    forecast days username today fetch st = (.error e, st1) := by
  unfold forecast
  rw [hg]

theorem carbon_pass (activity : String) (value : Int) (username today : String)
    (provider : ProviderResult) (st st1 : DBState) (n : Nat)
    (hg : check_and_increment_action username "carbon_calculations" today st = (.ok n, st1)) :
    carbon activity value username today provider st =
      match get_carbon_estimate activity value "km" provider with
      | .failure m => (.ok { data := .failure m }, st1)
      | .estimate a v un kg =>
        (.ok { data := .estimate a v un kg, points_earned := some 15,
               total_points := some (awardUserPoints username 15 st1).1,
               remaining_checks := some (((dailyLimit "carbon_calculations").getD 0 : Int) - n) },
         (awardUserPoints username 15 st1).2) := by
  unfold carbon
  rw [hg]

theorem carbon_reject (activity : String) (value : Int) (username today : String)
    (provider : ProviderResult) (st st1 : DBState) (e : HTTPError)
    (hg : check_and_increment_action username "carbon_calculations" today st = (.error e, st1)) :
    carbon activity value username today provider st = (.error e, st1) := by
  unfold carbon
  rw [hg]

/-- Lemma: `update_points` performs exactly the read-modify-write of the shared
award block, with an arbitrary (possibly negative) delta. -/
theorem update_points_eq_award (username : String) (delta : Int) (st : DBState) :
    update_points username delta st = awardUserPoints username delta st := rfl

theorem bal_get_user (username today v : String) (st : DBState) :
    bal (get_user username today st).2 v = bal st v := by
  unfold get_user bal
  cases h : lookupUser st.users username with
  | some p =>
    dsimp only
    rw [show (get_daily_actions username today st).2.users = st.users from
      users_gateEnsure username today st]
  | none =>
    dsimp only
    rw [show (get_daily_actions username today
          ({ st with users := st.users ++ [(username, 0)] })).2.users =
        st.users ++ [(username, 0)] from
      users_gateEnsure username today ({ st with users := st.users ++ [(username, 0)] })]
    rw [lookupUser_append]
    by_cases hv : v = username
    · subst hv; simp [h]
    · simp only [hv, if_false]
      cases hl : lookupUser st.users v <;> simp [hl]

/-! ### Iterated gate calls (for the quota-exhaustion property) -/

/-- Runs `n` sequential `check_and_increment_action` calls; the Boolean is true
when every one of them was admitted. -/
def gateCalls (u k d : String) : Nat → DBState → Bool × DBState
  | 0, st => (true, st)
  | n + 1, st =>
    let r := check_and_increment_action u k d st
    let rest := gateCalls u k d n r.2
    (exceptOk r.1 && rest.1, rest.2)

theorem gateCalls_all_pass (u k d : String) (L : Nat) (hk : dailyLimit k = some L) :
    ∀ n st, countOf st u d k + n ≤ L →
      (gateCalls u k d n st).1 = true ∧
      countOf (gateCalls u k d n st).2 u d k = countOf st u d k + n := by
  intro n
  induction n with
  | zero => intro st _; exact ⟨rfl, by simp [gateCalls]⟩
  | succ m ih =>
    intro st hle
    have hlt : countOf st u d k < L := by omega
    have hg := gate_pass u k d st L hk hlt
    have hcount := countOf_gate_passed u k d u d k st L hk hlt
    rw [if_pos ⟨rfl, rfl, rfl⟩] at hcount
    have hrest := ih (check_and_increment_action u k d st).2 (by rw [hcount]; omega)
    unfold gateCalls
    dsimp only
    refine ⟨?_, ?_⟩
    · rw [hrest.1, hg]
      rfl
    · rw [hrest.2, hcount]
      omega

/-! ### Orderings for the leaderboard -/

instance : IsTotal (String × Int) (fun a b => b.2 ≤ a.2) :=
  ⟨fun a b => le_total b.2 a.2⟩

instance : IsTrans (String × Int) (fun a b => b.2 ≤ a.2) :=
  ⟨fun _ _ _ h1 h2 => le_trans h2 h1⟩

theorem countOf_award (u : String) (amt : Int) (st : DBState) (u' d' c : String) :
    countOf (awardUserPoints u amt st).2 u' d' c = countOf st u' d' c := by
  unfold countOf
  rw [daily_award]

theorem get_carbon_estimate_success (activity : String) (value : Int)
    (unitArg : String) (co2e : Int) (h : activitySupported activity = true) :
    get_carbon_estimate activity value unitArg (.success co2e) =
      .estimate activity value (if activity ≠ "electricity" then "km" else "kWh") co2e := by
  simp only [activitySupported, Bool.or_eq_true, beq_iff_eq] at h
  rcases h with (((h | h) | h) | h) | h <;> subst h <;> rfl

/-! ## Claim theorems -/

/-- C2: for every user and known action kind, within one day: a call with
the counter at or above the limit fails with `QuotaExceeded` (HTTP 429) and
mutates no counter; a call with the counter below the limit is admitted,
increments exactly that counter by 1, and returns the post-increment value;
and starting from a zero counter, exactly `limit` calls are all admitted,
after which the counter is at `limit` and the `(limit+1)`-th call fails with
`QuotaExceeded`, leaving the counter at `limit`. -/
theorem quota_gate_contract (st : DBState) (u d k : String) (L : Nat)
    (hk : dailyLimit k = some L) :
    (L ≤ countOf st u d k →
      (check_and_increment_action u k d st).1 = .error (quotaError k L) ∧
      (quotaError k L).status_code = 429 ∧
      ∀ u' d' c, countOf (check_and_increment_action u k d st).2 u' d' c =
        countOf st u' d' c) ∧
    (countOf st u d k < L →
      (check_and_increment_action u k d st).1 = .ok (countOf st u d k + 1) ∧
      countOf (check_and_increment_action u k d st).2 u d k =
        countOf st u d k + 1 ∧
      ∀ u' d' c, ¬ (u' = u ∧ d' = d ∧ c = k) →
        countOf (check_and_increment_action u k d st).2 u' d' c =
          countOf st u' d' c) ∧
    (countOf st u d k = 0 →
      (gateCalls u k d L st).1 = true ∧
      countOf (gateCalls u k d L st).2 u d k = L ∧
      (check_and_increment_action u k d (gateCalls u k d L st).2).1 =
        .error (quotaError k L) ∧
      countOf (check_and_increment_action u k d (gateCalls u k d L st).2).2 u d k = L) := by
  refine ⟨?_, ?_, ?_⟩
  · intro h
    rw [gate_reject u k d st L hk h]
    exact ⟨rfl, rfl, fun u' d' c => countOf_gateEnsure u d u' d' c st⟩
  · intro h
    have hc := countOf_gate_passed u k d u d k st L hk h
    rw [if_pos ⟨rfl, rfl, rfl⟩] at hc
    refine ⟨?_, hc, ?_⟩
    · rw [gate_pass u k d st L hk h]
    · intro u' d' c hne
      have hc' := countOf_gate_passed u k d u' d' c st L hk h
      rw [if_neg hne] at hc'
      exact hc'
  · intro h0
    obtain ⟨hall, hcnt⟩ := gateCalls_all_pass u k d L hk L st (by omega)
    rw [h0] at hcnt
    simp only [Nat.zero_add] at hcnt
    have hfull : L ≤ countOf (gateCalls u k d L st).2 u d k := by omega
    refine ⟨hall, hcnt, ?_, ?_⟩
    · rw [gate_reject u k d (gateCalls u k d L st).2 L hk hfull]
    · rw [gate_reject u k d (gateCalls u k d L st).2 L hk hfull]
      dsimp only
      rw [countOf_gateEnsure]
      exact hcnt

/-- Witness for C2: with the `aqi_checks` limit of 5, five calls from a
fresh database are all admitted, the stored counter is then 5, and the
sixth call fails with `QuotaExceeded`. -/
theorem quota_gate_contract_w :
    (gateCalls "alice" "aqi_checks" "2026-10-12" 5 emptyDB).1 = true ∧
    countOf (gateCalls "alice" "aqi_checks" "2026-10-12" 5 emptyDB).2
      "alice" "2026-10-12" "aqi_checks" = 5 ∧
    (check_and_increment_action "alice" "aqi_checks" "2026-10-12"
      (gateCalls "alice" "aqi_checks" "2026-10-12" 5 emptyDB).2).1 =
      .error (quotaError "aqi_checks" 5) := by
  have h := (quota_gate_contract emptyDB "alice" "2026-10-12" "aqi_checks" 5
    (by decide)).2.2 (by decide)
  exact ⟨h.1, h.2.1, h.2.2.1⟩

/-- C7: an `action_type` outside the three known kinds makes
`check_and_increment_action` fail with `InvalidActionKind` (HTTP 400) and
return the state completely untouched: no users row and no daily_actions
row is created or modified. -/
theorem invalid_kind_before_storage (st : DBState) (u k d : String)
    (h1 : k ≠ "aqi_checks") (h2 : k ≠ "forecast_checks")
    (h3 : k ≠ "carbon_calculations") :
    check_and_increment_action u k d st = (.error invalidActionError, st) ∧
    invalidActionError.status_code = 400 := by
  refine ⟨?_, rfl⟩
  have hdl : dailyLimit k = none := by
    unfold dailyLimit
    simp [h1, h2, h3]
  unfold check_and_increment_action
  rw [hdl]

/-- Witness for C7 at a concrete unknown kind. -/
theorem invalid_kind_before_storage_w :
    check_and_increment_action "alice" "selfies" "2026-10-12" emptyDB =
      (.error invalidActionError, emptyDB) :=
  (invalid_kind_before_storage emptyDB "alice" "selfies" "2026-10-12"
    (by decide) (by decide) (by decide)).1

/-- C9: a call rejected with `QuotaExceeded` (429) still leaves a
daily_actions row for (user, today) in place — equal to the pre-existing row,
or freshly zero-initialised when none existed — while every counter value
and the users table are unchanged. -/
theorem quota_reject_record_exists (st : DBState) (u k d : String) (e : HTTPError)
    (hres : (check_and_increment_action u k d st).1 = .error e)
    (h429 : e.status_code = 429) :
    lookupDaily (check_and_increment_action u k d st).2.daily (u, d) =
      some ((lookupDaily st.daily (u, d)).getD DailyRecord.zero) ∧
    (∀ u' d' c, countOf (check_and_increment_action u k d st).2 u' d' c =
      countOf st u' d' c) ∧
    (check_and_increment_action u k d st).2.users = st.users := by
  cases hdl : dailyLimit k with
  | none =>
    have hc : check_and_increment_action u k d st = (.error invalidActionError, st) := by
      unfold check_and_increment_action
      rw [hdl]
    rw [hc] at hres
    simp only [Except.error.injEq] at hres
    rw [← hres] at h429
    exact absurd h429 (by decide)
  | some L =>
    by_cases hcount : L ≤ countOf st u d k
    · rw [gate_reject u k d st L hdl hcount]
      exact ⟨lookupDaily_gateEnsure_self u d st,
        fun u' d' c => countOf_gateEnsure u d u' d' c st,
        users_gateEnsure u d st⟩
    · push_neg at hcount
      rw [gate_pass u k d st L hdl hcount] at hres
      exact absurd hres (by simp)

/-- Witness for C9: rejecting "bob" at a full `aqi_checks` counter leaves
his daily row present and unchanged. -/
theorem quota_reject_record_exists_w :
    lookupDaily (check_and_increment_action "bob" "aqi_checks" "2026-10-12"
      ⟨[], [(("bob", "2026-10-12"), ⟨5, 0, 0⟩)]⟩).2.daily ("bob", "2026-10-12") =
      some ⟨5, 0, 0⟩ := by
  rw [(quota_reject_record_exists ⟨[], [(("bob", "2026-10-12"), ⟨5, 0, 0⟩)]⟩
    "bob" "aqi_checks" "2026-10-12" (quotaError "aqi_checks" 5)
    (by rfl) (by decide)).1]
  decide

/-- C10: whenever `get_carbon_estimate` returns a success dict, its `unit`
field is "kWh" for electricity and "km" otherwise, regardless of the
(unused) `unit` argument; the `/carbon` endpoint passes no caller unit. -/
theorem carbon_unit_from_activity (activity : String) (value : Int)
    (unitArg : String) (provider : ProviderResult) (a : String) (v : Int)
    (un : String) (kg : Int)
    (h : get_carbon_estimate activity value unitArg provider = .estimate a v un kg) :
    un = if activity = "electricity" then "kWh" else "km" := by
  cases provider with
  | exn m =>
    exfalso
    unfold get_carbon_estimate at h
    split_ifs at h <;> simp at h
  | success co2e =>
    unfold get_carbon_estimate at h
    by_cases he : activity = "electricity"
    · subst he
      rw [if_pos rfl]
      simp [activitySupported] at h
      exact h.2.2.1.symm
    · rw [if_neg he]
      split_ifs at h <;> simp_all

/-- Witness for C10: an electricity estimate carries unit "kWh" even though
the (defaulted) `unit` argument was "km". -/
theorem carbon_unit_from_activity_w :
    "kWh" = if "electricity" = "electricity" then "kWh" else "km" :=
  carbon_unit_from_activity "electricity" 10 "km" (.success 7)
    "electricity" 10 "kWh" 7 (by decide)

/-- C8: the leaderboard has at most 10 rows, is sorted by points
descending, draws only from the users table, and on stored balances
a:30, b:50, c:10 it returns [b, a, c]. -/
theorem leaderboard_top10_desc (st : DBState) :
    (leaderboard st).length ≤ 10 ∧
    List.Sorted (fun a b : String × Int => b.2 ≤ a.2) (leaderboard st) ∧
    (∀ p ∈ leaderboard st, p ∈ st.users) ∧
    leaderboard ⟨[("a", 30), ("b", 50), ("c", 10)], []⟩ =
      [("b", 50), ("a", 30), ("c", 10)] := by
  refine ⟨?_, ?_, ?_, by decide⟩
  · exact List.length_take_le 10 _
  · exact (List.sorted_insertionSort _ _).sublist (List.take_sublist 10 _)
  · intro p hp
    have hmem := List.take_subset 10 _ hp
    rwa [List.mem_insertionSort] at hmem

/-- C3 (counterexample): on a fresh database, a `/carbon` request for the
unsupported activity "bike" by "bob" surfaces the unsupported-activity
error and leaves the balance of bob unchanged, but it is not mutation-free: the
quota gate has already moved the `carbon_calculations` counter of bob from 0 to
1 before the activity was validated. -/
theorem carbon_unsupported_mutates_cex :
    countOf emptyDB "bob" "2026-10-12" "carbon_calculations" = 0 ∧
    countOf (carbon "bike" 10 "bob" "2026-10-12" (.success 0) emptyDB).2
      "bob" "2026-10-12" "carbon_calculations" = 1 ∧
    (carbon "bike" 10 "bob" "2026-10-12" (.success 0) emptyDB).1 =
      .ok { data := .failure unsupportedActivityMsg } ∧
    bal (carbon "bike" 10 "bob" "2026-10-12" (.success 0) emptyDB).2 "bob" = 0 :=
  ⟨by decide, by decide, by rfl, by decide⟩

/-- C3 (amended): for an activity outside the supported set, when the gate
admits the request, the `/carbon` endpoint surfaces the
unsupported-activity error, awards no points and leaves every balance
unchanged — but the daily `carbon_calculations` counter is incremented by
1, because the quota gate runs before the activity is validated. -/
theorem carbon_unsupported_quota_consumed (st : DBState) (u d : String)
    (activity : String) (value : Int) (provider : ProviderResult)
    (hact : activitySupported activity = false)
    (hq : countOf st u d "carbon_calculations" < 10) :
    (carbon activity value u d provider st).1 =
      .ok { data := .failure unsupportedActivityMsg } ∧
    (∀ v, bal (carbon activity value u d provider st).2 v = bal st v) ∧
    countOf (carbon activity value u d provider st).2 u d "carbon_calculations" =
      countOf st u d "carbon_calculations" + 1 := by
  have hg := gate_pass u "carbon_calculations" d st 10 (by rfl) hq
  have hdata : get_carbon_estimate activity value "km" provider =
      .failure unsupportedActivityMsg := by
    unfold get_carbon_estimate
    rw [if_pos (by simp [hact])]
  have heq : carbon activity value u d provider st =
      (.ok { data := .failure unsupportedActivityMsg },
       gateUpdate u d "carbon_calculations" (gateEnsure u d st)) := by
    rw [carbon_pass activity value u d provider st _ _ hg, hdata]
  have hc := countOf_gate_passed u "carbon_calculations" d u d
    "carbon_calculations" st 10 (by rfl) hq
  rw [if_pos ⟨rfl, rfl, rfl⟩, hg] at hc
  refine ⟨by rw [heq], ?_, ?_⟩
  · intro v
    rw [heq]
    dsimp only
    unfold bal
    rw [users_gateUpdate, users_gateEnsure]
  · rw [heq]
    exact hc

/-- Witness for the amended C3 at a concrete unsupported activity. -/
theorem carbon_unsupported_quota_consumed_w :
    (carbon "bike" 5 "carol" "2026-10-12" (.exn "x") emptyDB).1 =
      .ok { data := .failure unsupportedActivityMsg } :=
  (carbon_unsupported_quota_consumed emptyDB "carol" "2026-10-12" "bike" 5
    (.exn "x") (by decide) (by decide)).1

/-- C5: when the gate admits but the external fetch returns an error
payload, each gated endpoint returns exactly that error payload with no
points fields, every point balance is unchanged, and the quota slot stays
consumed: the daily counter keeps its incremented value. -/
theorem provider_failure_consumes_quota (st : DBState) (u d m : String)
    (days : Int) (f : Int → FetchData) (activity : String) (value : Int)
    (provider : ProviderResult) :
    (countOf st u d "aqi_checks" < 5 →
      (air_quality u d (.failure m) st).1 = .ok { data := .failure m } ∧
      (∀ v, bal (air_quality u d (.failure m) st).2 v = bal st v) ∧
      countOf (air_quality u d (.failure m) st).2 u d "aqi_checks" =
        countOf st u d "aqi_checks" + 1) ∧
    (countOf st u d "forecast_checks" < 3 →
     f (max 1 (min 7 days)) = .failure m →
      (forecast days u d f st).1 = .ok { data := .failure m } ∧
      (∀ v, bal (forecast days u d f st).2 v = bal st v) ∧
      countOf (forecast days u d f st).2 u d "forecast_checks" =
        countOf st u d "forecast_checks" + 1) ∧
    (countOf st u d "carbon_calculations" < 10 →
     get_carbon_estimate activity value "km" provider = .failure m →
      (carbon activity value u d provider st).1 = .ok { data := .failure m } ∧
      (∀ v, bal (carbon activity value u d provider st).2 v = bal st v) ∧
      countOf (carbon activity value u d provider st).2 u d "carbon_calculations" =
        countOf st u d "carbon_calculations" + 1) := by
  refine ⟨?_, ?_, ?_⟩
  · intro hq
    have hg := gate_pass u "aqi_checks" d st 5 (by rfl) hq
    have heq : air_quality u d (.failure m) st =
        (.ok { data := .failure m }, gateUpdate u d "aqi_checks" (gateEnsure u d st)) := by
      rw [air_quality_pass u d (.failure m) st _ _ hg]
    have hc := countOf_gate_passed u "aqi_checks" d u d "aqi_checks" st 5 (by rfl) hq
    rw [if_pos ⟨rfl, rfl, rfl⟩, hg] at hc
    refine ⟨by rw [heq], ?_, ?_⟩
    · intro v
      rw [heq]
      dsimp only
      unfold bal
      rw [users_gateUpdate, users_gateEnsure]
    · rw [heq]
      exact hc
  · intro hq hf
    have hg := gate_pass u "forecast_checks" d st 3 (by rfl) hq
    have heq : forecast days u d f st =
        (.ok { data := .failure m }, gateUpdate u d "forecast_checks" (gateEnsure u d st)) := by
      rw [forecast_pass days u d f st _ _ hg, hf]
    have hc := countOf_gate_passed u "forecast_checks" d u d "forecast_checks" st 3 (by rfl) hq
    rw [if_pos ⟨rfl, rfl, rfl⟩, hg] at hc
    refine ⟨by rw [heq], ?_, ?_⟩
    · intro v
      rw [heq]
      dsimp only
      unfold bal
      rw [users_gateUpdate, users_gateEnsure]
    · rw [heq]
      exact hc
  · intro hq hdata
    have hg := gate_pass u "carbon_calculations" d st 10 (by rfl) hq
    have heq : carbon activity value u d provider st =
        (.ok { data := .failure m }, gateUpdate u d "carbon_calculations" (gateEnsure u d st)) := by
      rw [carbon_pass activity value u d provider st _ _ hg, hdata]
    have hc := countOf_gate_passed u "carbon_calculations" d u d
      "carbon_calculations" st 10 (by rfl) hq
    rw [if_pos ⟨rfl, rfl, rfl⟩, hg] at hc
    refine ⟨by rw [heq], ?_, ?_⟩
    · intro v
      rw [heq]
      dsimp only
      unfold bal
      rw [users_gateUpdate, users_gateEnsure]
    · rw [heq]
      exact hc

/-- Witness for C5: the spec's provider-failure example — bob's `/carbon`
call with a failing estimator returns an error payload, the balance of bob stays
0, and his daily carbon counter has moved to 1. -/
theorem provider_failure_consumes_quota_w :
    (carbon "car" 10 "bob" "2026-10-12" (.exn "boom") emptyDB).1 =
      .ok { data := .failure "Failed to fetch carbon data: boom" } ∧
    bal (carbon "car" 10 "bob" "2026-10-12" (.exn "boom") emptyDB).2 "bob" = 0 ∧
    countOf (carbon "car" 10 "bob" "2026-10-12" (.exn "boom") emptyDB).2
      "bob" "2026-10-12" "carbon_calculations" = 1 := by
  have h := (provider_failure_consumes_quota emptyDB "bob" "2026-10-12"
    "Failed to fetch carbon data: boom" 3 (fun _ => .payload "x") "car" 10
    (.exn "boom")).2.2 (by decide) (by rfl)
  exact ⟨h.1, (h.2.1 "bob").trans (by decide), h.2.2.trans (by decide)⟩

/-- C6: when the gate admits and the external fetch succeeds, each gated
endpoint returns the fetch result merged with `points_earned` equal to the
fixed per-kind amount (10 for an AQI check, 5 for a forecast, 15 for a
carbon calculation), `total_points` equal to the prior balance plus that
amount (a fresh balance row starts from 0), and `remaining_checks` equal
to the limit minus the post-increment counter; the stored balance of the user
grows by the amount and all other balances are unchanged. -/
theorem gated_success_response (st : DBState) (u d b : String) (days : Int)
    (f : Int → FetchData) (activity : String) (value : Int) (co2e : Int) :
    (countOf st u d "aqi_checks" < 5 →
      (air_quality u d (.payload b) st).1 =
        .ok { data := .payload b, points_earned := some 10,
              total_points := some (bal st u + 10),
              remaining_checks :=
                some (5 - ((countOf st u d "aqi_checks" : Int) + 1)) } ∧
      bal (air_quality u d (.payload b) st).2 u = bal st u + 10 ∧
      (∀ v, v ≠ u → bal (air_quality u d (.payload b) st).2 v = bal st v) ∧
      countOf (air_quality u d (.payload b) st).2 u d "aqi_checks" =
        countOf st u d "aqi_checks" + 1) ∧
    (countOf st u d "forecast_checks" < 3 →
     f (max 1 (min 7 days)) = .payload b →
      (forecast days u d f st).1 =
        .ok { data := .payload b, points_earned := some 5,
              total_points := some (bal st u + 5),
              remaining_checks :=
                some (3 - ((countOf st u d "forecast_checks" : Int) + 1)) } ∧
      bal (forecast days u d f st).2 u = bal st u + 5 ∧
      (∀ v, v ≠ u → bal (forecast days u d f st).2 v = bal st v) ∧
      countOf (forecast days u d f st).2 u d "forecast_checks" =
        countOf st u d "forecast_checks" + 1) ∧
    (activitySupported activity = true →
     countOf st u d "carbon_calculations" < 10 →
      (carbon activity value u d (.success co2e) st).1 =
        .ok { data := .estimate activity value
                (if activity ≠ "electricity" then "km" else "kWh") co2e,
              points_earned := some 15,
              total_points := some (bal st u + 15),
              remaining_checks :=
                some (10 - ((countOf st u d "carbon_calculations" : Int) + 1)) } ∧
      bal (carbon activity value u d (.success co2e) st).2 u = bal st u + 15 ∧
      (∀ v, v ≠ u →
        bal (carbon activity value u d (.success co2e) st).2 v = bal st v) ∧
      countOf (carbon activity value u d (.success co2e) st).2 u d
        "carbon_calculations" = countOf st u d "carbon_calculations" + 1) := by
  refine ⟨?_, ?_, ?_⟩
  · intro hq
    have hg := gate_pass u "aqi_checks" d st 5 (by rfl) hq
    have hbal1 : ∀ v, bal (gateUpdate u d "aqi_checks" (gateEnsure u d st)) v = bal st v := by
      intro v
      unfold bal
      rw [users_gateUpdate, users_gateEnsure]
    have heq : air_quality u d (.payload b) st =
        (.ok { data := .payload b, points_earned := some 10,
               total_points := some (awardUserPoints u 10
                 (gateUpdate u d "aqi_checks" (gateEnsure u d st))).1,
               remaining_checks := some (((dailyLimit "aqi_checks").getD 0 : Int) -
                 ((countOf st u d "aqi_checks" + 1 : Nat) : Int)) },
         (awardUserPoints u 10 (gateUpdate u d "aqi_checks" (gateEnsure u d st))).2) := by
      rw [air_quality_pass u d (.payload b) st _ _ hg]
    have hc := countOf_gate_passed u "aqi_checks" d u d "aqi_checks" st 5 (by rfl) hq
    rw [if_pos ⟨rfl, rfl, rfl⟩, hg] at hc
    refine ⟨?_, ?_, ?_, ?_⟩
    · rw [heq]
      dsimp only
      rw [award_fst, hbal1 u]
      simp [dailyLimit]
    · rw [heq]
      dsimp only
      rw [bal_award, if_pos rfl, hbal1 u]
    · intro v hv
      rw [heq]
      dsimp only
      rw [bal_award, if_neg hv, hbal1 v]
    · rw [heq]
      dsimp only
      rw [countOf_award]
      exact hc
  · intro hq hf
    have hg := gate_pass u "forecast_checks" d st 3 (by rfl) hq
    have hbal1 : ∀ v, bal (gateUpdate u d "forecast_checks" (gateEnsure u d st)) v = bal st v := by
      intro v
      unfold bal
      rw [users_gateUpdate, users_gateEnsure]
    have heq : forecast days u d f st =
        (.ok { data := .payload b, points_earned := some 5,
               total_points := some (awardUserPoints u 5
                 (gateUpdate u d "forecast_checks" (gateEnsure u d st))).1,
               remaining_checks := some (((dailyLimit "forecast_checks").getD 0 : Int) -
                 ((countOf st u d "forecast_checks" + 1 : Nat) : Int)) },
         (awardUserPoints u 5 (gateUpdate u d "forecast_checks" (gateEnsure u d st))).2) := by
      rw [forecast_pass days u d f st _ _ hg, hf]
    have hc := countOf_gate_passed u "forecast_checks" d u d "forecast_checks" st 3 (by rfl) hq
    rw [if_pos ⟨rfl, rfl, rfl⟩, hg] at hc
    refine ⟨?_, ?_, ?_, ?_⟩
    · rw [heq]
      dsimp only
      rw [award_fst, hbal1 u]
      simp [dailyLimit]
    · rw [heq]
      dsimp only
      rw [bal_award, if_pos rfl, hbal1 u]
    · intro v hv
      rw [heq]
      dsimp only
      rw [bal_award, if_neg hv, hbal1 v]
    · rw [heq]
      dsimp only
      rw [countOf_award]
      exact hc
  · intro hact hq
    have hg := gate_pass u "carbon_calculations" d st 10 (by rfl) hq
    have hbal1 : ∀ v, bal (gateUpdate u d "carbon_calculations" (gateEnsure u d st)) v = bal st v := by
      intro v
      unfold bal
      rw [users_gateUpdate, users_gateEnsure]
    have heq : carbon activity value u d (.success co2e) st =
        (.ok { data := .estimate activity value
                 (if activity ≠ "electricity" then "km" else "kWh") co2e,
               points_earned := some 15,
               total_points := some (awardUserPoints u 15
                 (gateUpdate u d "carbon_calculations" (gateEnsure u d st))).1,
               remaining_checks := some (((dailyLimit "carbon_calculations").getD 0 : Int) -
                 ((countOf st u d "carbon_calculations" + 1 : Nat) : Int)) },
         (awardUserPoints u 15 (gateUpdate u d "carbon_calculations" (gateEnsure u d st))).2) := by
      rw [carbon_pass activity value u d (.success co2e) st _ _ hg,
        get_carbon_estimate_success activity value "km" co2e hact]
    have hc := countOf_gate_passed u "carbon_calculations" d u d
      "carbon_calculations" st 10 (by rfl) hq
    rw [if_pos ⟨rfl, rfl, rfl⟩, hg] at hc
    refine ⟨?_, ?_, ?_, ?_⟩
    · rw [heq]
      dsimp only
      rw [award_fst, hbal1 u]
      simp [dailyLimit]
    · rw [heq]
      dsimp only
      rw [bal_award, if_pos rfl, hbal1 u]
    · intro v hv
      rw [heq]
      dsimp only
      rw [bal_award, if_neg hv, hbal1 v]
    · rw [heq]
      dsimp only
      rw [countOf_award]
      exact hc

/-- Witness for C6: the spec's end-to-end example — alice's first
`/air_quality` call on a fresh database returns `points_earned = 10`,
`total_points = 10`, `remaining_checks = 4`. -/
theorem gated_success_response_w :
    (air_quality "alice" "2026-10-12" (.payload "aqi-body") emptyDB).1 =
      .ok { data := .payload "aqi-body", points_earned := some 10,
            total_points := some 10, remaining_checks := some 4 } := by
  rw [((gated_success_response emptyDB "alice" "2026-10-12" "aqi-body" 3
    (fun _ => .payload "x") "car" 10 7).1 (by decide)).1]
  rfl

/-- The shared database state for the C1 interleaving: the `aqi_checks`
counter for user "u" on 2026-10-12 stands at 4, one below the limit of 5. -/
def raceStart : DBState := ⟨[], [(("u", "2026-10-12"), ⟨4, 0, 0⟩)]⟩

/-- C1: the check-then-increment of the gate is NOT atomic.
`check_and_increment_action` executes, in order, the atomic SQL statements
`gateEnsure` (INSERT OR IGNORE + commit), `gateSelect` (SELECT), a
Python-side comparison of the selected snapshot against the limit, and
`gateUpdate` (UPDATE ... = ... + 1 + commit); no lock spans the SELECT and
the UPDATE, and FastAPI runs these sync handlers in a threadpool over one
shared connection.  Under the interleaving A:ensure, A:select, B:ensure,
B:select, A:update, B:update, both calls for ("u", aqi_checks, same day)
starting at counter 4 pass the limit check (each snapshot reads 4 < 5, so
each call succeeds returning 4 + 1 = 5) and the stored counter ends at
6 — two simultaneous requests at count = limit−1 both succeed, and the
final counter exceeds the limit, refuting the claimed atomicity. -/
theorem gate_check_then_increment_race :
    (gateSelect "u" "2026-10-12" (gateEnsure "u" "2026-10-12" raceStart)).col
      "aqi_checks" = 4 ∧
    (gateSelect "u" "2026-10-12" (gateEnsure "u" "2026-10-12"
      (gateEnsure "u" "2026-10-12" raceStart))).col "aqi_checks" = 4 ∧
    countOf
      (gateUpdate "u" "2026-10-12" "aqi_checks"
        (gateUpdate "u" "2026-10-12" "aqi_checks"
          (gateEnsure "u" "2026-10-12" (gateEnsure "u" "2026-10-12" raceStart))))
      "u" "2026-10-12" "aqi_checks" = 6 :=
  ⟨by decide, by decide, by decide⟩

/-- C4 (counterexample): `/update_points` is part of the public interface
and is neither gated nor sign-checked: posting delta = −5 for a fresh user
"bob" stores a balance of −5, so the cumulative balance is not a
non-negative integer. -/
theorem points_negative_cex :
    (update_points "bob" (-5) emptyDB).1 = -5 ∧
    bal (update_points "bob" (-5) emptyDB).2 "bob" = -5 ∧ (-5 : Int) < 0 :=
  ⟨by decide, by decide, by decide⟩

/-- C4 (amended): under every operation of the public interface except
`/update_points` with a negative delta, no balance of any user decreases (hence
balances stay non-negative when they were); and excluding `/update_points`
altogether, a balance strictly increases only through a gate-approved,
provider-successful gated action of that user. -/
theorem points_balance_monotone (today : String) (op : ApiOp) (st : DBState)
    (hneg : ¬ isNegativeAdjust op) :
    (∀ v, bal st v ≤ bal (runOp today op st) v) ∧
    ((∀ v, 0 ≤ bal st v) → ∀ v, 0 ≤ bal (runOp today op st) v) ∧
    (¬ isAdjust op → ∀ v, bal st v < bal (runOp today op st) v →
      awardingOp today op st v) := by
  have main : (∀ v, bal st v ≤ bal (runOp today op st) v) ∧
      (¬ isAdjust op → ∀ v, bal st v < bal (runOp today op st) v →
        awardingOp today op st v) := by
    cases op with
    | airQualityOp username fetch =>
      rcases hg : check_and_increment_action username "aqi_checks" today st with ⟨res, st1⟩
      have husers : st1.users = st.users := by
        have hu := users_gate username "aqi_checks" today st
        rw [hg] at hu
        exact hu
      have hbal1 : ∀ v, bal st1 v = bal st v := by
        intro v
        unfold bal
        rw [husers]
      cases res with
      | error e =>
        have heq : runOp today (.airQualityOp username fetch) st = st1 := by
          unfold runOp
          dsimp only
          rw [air_quality_reject username today fetch st st1 e hg]
        rw [heq]
        refine ⟨fun v => le_of_eq (hbal1 v).symm, fun _ v hlt => ?_⟩
        rw [hbal1 v] at hlt
        exact absurd hlt (lt_irrefl _)
      | ok n =>
        cases fetch with
        | failure m =>
          have heq : runOp today (.airQualityOp username (.failure m)) st = st1 := by
            unfold runOp
            dsimp only
            rw [air_quality_pass username today (.failure m) st st1 n hg]
          rw [heq]
          refine ⟨fun v => le_of_eq (hbal1 v).symm, fun _ v hlt => ?_⟩
          rw [hbal1 v] at hlt
          exact absurd hlt (lt_irrefl _)
        | payload b =>
          have heq : runOp today (.airQualityOp username (.payload b)) st =
              (awardUserPoints username 10 st1).2 := by
            unfold runOp
            dsimp only
            rw [air_quality_pass username today (.payload b) st st1 n hg]
          rw [heq]
          constructor
          · intro v
            rw [bal_award]
            by_cases hv : v = username
            · subst hv
              rw [if_pos rfl, hbal1 v]
              omega
            · rw [if_neg hv]
              exact le_of_eq (hbal1 v).symm
          · intro _ v hlt
            rw [bal_award] at hlt
            by_cases hv : v = username
            · subst hv
              exact ⟨rfl, by rw [hg]; rfl, ⟨b, rfl⟩⟩
            · rw [if_neg hv, hbal1 v] at hlt
              exact absurd hlt (lt_irrefl _)
    | forecastOp days username fetch =>
      rcases hg : check_and_increment_action username "forecast_checks" today st with ⟨res, st1⟩
      have husers : st1.users = st.users := by
        have hu := users_gate username "forecast_checks" today st
        rw [hg] at hu
        exact hu
      have hbal1 : ∀ v, bal st1 v = bal st v := by
        intro v
        unfold bal
        rw [husers]
      cases res with
      | error e =>
        have heq : runOp today (.forecastOp days username fetch) st = st1 := by
          unfold runOp
          dsimp only
          rw [forecast_reject days username today fetch st st1 e hg]
        rw [heq]
        refine ⟨fun v => le_of_eq (hbal1 v).symm, fun _ v hlt => ?_⟩
        rw [hbal1 v] at hlt
        exact absurd hlt (lt_irrefl _)
      | ok n =>
        cases hf : fetch (max 1 (min 7 days)) with
        | failure m =>
          have heq : runOp today (.forecastOp days username fetch) st = st1 := by
            unfold runOp
            dsimp only
            rw [forecast_pass days username today fetch st st1 n hg, hf]
          rw [heq]
          refine ⟨fun v => le_of_eq (hbal1 v).symm, fun _ v hlt => ?_⟩
          rw [hbal1 v] at hlt
          exact absurd hlt (lt_irrefl _)
        | payload b =>
          have heq : runOp today (.forecastOp days username fetch) st =
              (awardUserPoints username 5 st1).2 := by
            unfold runOp
            dsimp only
            rw [forecast_pass days username today fetch st st1 n hg, hf]
          rw [heq]
          constructor
          · intro v
            rw [bal_award]
            by_cases hv : v = username
            · subst hv
              rw [if_pos rfl, hbal1 v]
              omega
            · rw [if_neg hv]
              exact le_of_eq (hbal1 v).symm
          · intro _ v hlt
            rw [bal_award] at hlt
            by_cases hv : v = username
            · subst hv
              exact ⟨rfl, by rw [hg]; rfl, ⟨b, hf⟩⟩
            · rw [if_neg hv, hbal1 v] at hlt
              exact absurd hlt (lt_irrefl _)
    | carbonOp activity value username provider =>
      rcases hg : check_and_increment_action username "carbon_calculations" today st with ⟨res, st1⟩
      have husers : st1.users = st.users := by
        have hu := users_gate username "carbon_calculations" today st
        rw [hg] at hu
        exact hu
      have hbal1 : ∀ v, bal st1 v = bal st v := by
        intro v
        unfold bal
        rw [husers]
      cases res with
      | error e =>
        have heq : runOp today (.carbonOp activity value username provider) st = st1 := by
          unfold runOp
          dsimp only
          rw [carbon_reject activity value username today provider st st1 e hg]
        rw [heq]
        refine ⟨fun v => le_of_eq (hbal1 v).symm, fun _ v hlt => ?_⟩
        rw [hbal1 v] at hlt
        exact absurd hlt (lt_irrefl _)
      | ok n =>
        cases hdata : get_carbon_estimate activity value "km" provider with
        | failure m =>
          have heq : runOp today (.carbonOp activity value username provider) st = st1 := by
            unfold runOp
            dsimp only
            rw [carbon_pass activity value username today provider st st1 n hg, hdata]
          rw [heq]
          refine ⟨fun v => le_of_eq (hbal1 v).symm, fun _ v hlt => ?_⟩
          rw [hbal1 v] at hlt
          exact absurd hlt (lt_irrefl _)
        | estimate a v2 un kg =>
          have heq : runOp today (.carbonOp activity value username provider) st =
              (awardUserPoints username 15 st1).2 := by
            unfold runOp
            dsimp only
            rw [carbon_pass activity value username today provider st st1 n hg, hdata]
          rw [heq]
          constructor
          · intro v
            rw [bal_award]
            by_cases hv : v = username
            · subst hv
              rw [if_pos rfl, hbal1 v]
              omega
            · rw [if_neg hv]
              exact le_of_eq (hbal1 v).symm
          · intro _ v hlt
            rw [bal_award] at hlt
            by_cases hv : v = username
            · subst hv
              exact ⟨rfl, by rw [hg]; rfl, ⟨a, v2, un, kg, hdata⟩⟩
            · rw [if_neg hv, hbal1 v] at hlt
              exact absurd hlt (lt_irrefl _)
    | getUserOp username =>
      have heq : ∀ v, bal (runOp today (.getUserOp username) st) v = bal st v := by
        intro v
        unfold runOp
        exact bal_get_user username today v st
      refine ⟨fun v => le_of_eq (heq v).symm, fun _ v hlt => ?_⟩
      rw [heq v] at hlt
      exact absurd hlt (lt_irrefl _)
    | updatePointsOp username delta =>
      have hd : ¬ (delta < 0) := hneg
      constructor
      · intro v
        have heq : runOp today (.updatePointsOp username delta) st =
            (awardUserPoints username delta st).2 := by
          unfold runOp
          dsimp only
          rw [update_points_eq_award]
        rw [heq, bal_award]
        by_cases hv : v = username
        · subst hv
          rw [if_pos rfl]
          omega
        · rw [if_neg hv]
      · intro hadj
        exact absurd trivial hadj
    | leaderboardOp =>
      exact ⟨fun v => le_refl _, fun _ v hlt => absurd hlt (lt_irrefl _)⟩
    | rootOp =>
      exact ⟨fun v => le_refl _, fun _ v hlt => absurd hlt (lt_irrefl _)⟩
  exact ⟨main.1, fun h0 v => le_trans (h0 v) (main.1 v), main.2⟩

/-- Witness for the amended C4: a successful gated AQI call raises the
balance of alice, never lowering any balance. -/
theorem points_balance_monotone_w :
    bal emptyDB "alice" ≤
      bal (runOp "2026-10-12" (.airQualityOp "alice" (.payload "body")) emptyDB) "alice" :=
  (points_balance_monotone "2026-10-12" (.airQualityOp "alice" (.payload "body"))
    emptyDB (fun h => h)).1 "alice"

/-- Witness for C8: on the three-user table, the top entry of the
leaderboard is a stored users row. -/
theorem leaderboard_top10_desc_w :
    ("b", (50 : Int)) ∈ (⟨[("a", 30), ("b", 50), ("c", 10)], []⟩ : DBState).users :=
  (leaderboard_top10_desc ⟨[("a", 30), ("b", 50), ("c", 10)], []⟩).2.2.1
    ("b", 50) (by decide)
